import Mathlib

/-!
# Verification of the farmcars data-model and bootstrap layers

Shallow embedding of `src/models.py` and `src/main.py` of the farmcars
repository: the record-identifier adapter (`PyObjectId`), the pydantic
model shapes (`MongoBaseModel`, `CarBase`, `CarUpdate`, `CarDB`), their
construction-time validation and JSON rendering, and the application
bootstrap (configuration reads, CORS middleware, router mounting).
-/

set_option autoImplicit false

namespace Farmcars

/-- A MongoDB ObjectId: natively a 12-byte binary value.  Bytes are
modelled as `Nat`s; well-formed identifiers have 12 bytes, each `< 256`. -/
structure ObjectId where
  bytes : List Nat
  deriving DecidableEq, Repr

/-- Well-formedness of the native identifier: exactly 12 bytes, each a
byte value. -/
def ObjectId.WF (o : ObjectId) : Prop :=
  o.bytes.length = 12 ∧ ∀ b ∈ o.bytes, b < 256

instance (o : ObjectId) : Decidable o.WF := by
  unfold ObjectId.WF; infer_instance

/-- An untyped Python value as it can appear in untrusted input handed to
a pydantic model or to `ObjectId`: a string, an integer, a byte sequence,
an existing native identifier, or `None`. -/
inductive Value where
  | vStr (s : String)
  | vInt (n : Int)
  | vBytes (bs : List Nat)
  | vOid (o : ObjectId)
  | vNone
  deriving DecidableEq, Repr

/-- A hexadecimal digit, upper or lower case. -/
def isHexDigitChar (c : Char) : Bool :=
  (('0' ≤ c && c ≤ '9') || ('a' ≤ c && c ≤ 'f') || ('A' ≤ c && c ≤ 'F'))

/-- Numeric value of a hexadecimal digit (junk on non-digits). -/
def hexDigitVal (c : Char) : Nat :=
  if '0' ≤ c && c ≤ '9' then c.toNat - '0'.toNat
  else if 'a' ≤ c && c ≤ 'f' then c.toNat - 'a'.toNat + 10
  else if 'A' ≤ c && c ≤ 'F' then c.toNat - 'A'.toNat + 10
  else 0

/-- Decode a list of hex digits, two characters per byte. -/
def hexDecode : List Char → List Nat
  | c1 :: c2 :: rest => (16 * hexDigitVal c1 + hexDigitVal c2) :: hexDecode rest
  | _ => []

/-- Lower-case hex digit for a value `< 16`. -/
def hexChar (n : Nat) : Char :=
  if n < 10 then Char.ofNat ('0'.toNat + n) else Char.ofNat ('a'.toNat + (n - 10))

/-- Two lower-case hex digits for one byte. -/
def byteToHex (b : Nat) : List Char :=
  [hexChar (b / 16), hexChar (b % 16)]

/-- Hex characters of a byte sequence. -/
def bytesToHexChars : List Nat → List Char
  | [] => []
  | b :: rest => byteToHex b ++ bytesToHexChars rest

/-- `str(ObjectId)`: the 24-character lower-case hexadecimal rendering of
the 12-byte identifier.  This is what the `json_encoders = {ObjectId: str}`
configuration of `MongoBaseModel` applies when rendering to JSON. -/
def ObjectId.toHexString (o : ObjectId) : String :=
  ⟨bytesToHexChars o.bytes⟩

/-- `bson.ObjectId.is_valid`: an input is a syntactically valid identifier
when it is an existing `ObjectId`, a 24-character hexadecimal string, or a
12-byte binary sequence; every other value (integers, `None`, …) is
invalid. -/
def ObjectId.is_valid : Value → Bool
  | .vOid _ => true
  | .vStr s => s.length == 24 && s.data.all isHexDigitChar
  | .vBytes bs => bs.length == 12
  | _ => false

/-- `bson.ObjectId(v)` on a valid input: an existing identifier is passed
through, a hex string is decoded to its 12 bytes, a 12-byte sequence is
taken as the bytes.  (Junk on invalid inputs, where the constructor
raises instead.) -/
def ObjectId.fromValue : Value → ObjectId
  | .vOid o => o
  | .vStr s => ⟨hexDecode s.data⟩
  | .vBytes bs => ⟨bs⟩
  | _ => ⟨[]⟩

/-- `PyObjectId.validate` from `src/models.py`: raise
`ValueError("Invalid objectid")` unless `ObjectId.is_valid(v)`, else
return `ObjectId(v)`. -/
def PyObjectId.validate (v : Value) : Except String ObjectId :=
  if ¬ ObjectId.is_valid v then .error "Invalid objectid"
  else .ok (ObjectId.fromValue v)

/-- `PyObjectId.__modify_schema__` from `src/models.py`: sets the `type`
entry of the field schema to `"string"`, keeping every other entry. -/
def PyObjectId.modify_schema (fieldSchema : List (String × String)) :
    List (String × String) :=
  ("type", "string") :: fieldSchema.filter (fun p => p.1 ≠ "type")

/-! ## The pydantic model layer (from `src/models.py`)

An untrusted input is a dictionary, modelled as an association list from
field keys to `Value`s.  Modelled from the spec: pydantic itself is a
third-party library whose source is not part of the repository, so the
semantics of its declarative validation — required fields fail with
"field required" when missing, typed fields fail when the value has the
wrong type, `min_length` fails with "ensure this value has at least 3
characters", all field errors are collected into one Validation error —
follow §4.2/§7 of the specification; the field declarations themselves
(names, types, constraints, aliases, defaults) are transcribed from
`src/models.py`. -/

/-- An untrusted input dictionary. -/
abbrev Input := List (String × Value)

/-- Dictionary lookup (first match). -/
def lookupKey {α : Type} (k : String) : List (String × α) → Option α
  | [] => none
  | (k', v) :: rest => if k' == k then some v else lookupKey k rest

/-- One field-level validation error: field key and message. -/
abbrev FieldError := String × String

/-- The errors contributed by one field's validation. -/
def errsOf {α : Type} : Except FieldError α → List FieldError
  | .error e => [e]
  | .ok _ => []

/-- The validated value of one field (default when it failed; the default
is never reached on a construction that succeeds). -/
def getOk {α : Type} : Except FieldError α → α → α
  | .ok a, _ => a
  | .error _, d => d

/-- `id: PyObjectId = Field(default_factory=PyObjectId, alias="_id")`:
populated from the wire key `_id` through `PyObjectId.validate`; when the
key is absent the default factory generates a fresh identifier. -/
def validateId (input : Input) (fresh : ObjectId) : Except FieldError ObjectId :=
  match lookupKey "_id" input with
  | none => .ok fresh
  | some v =>
    match PyObjectId.validate v with
    | .ok o => .ok o
    | .error m => .error ("_id", m)

/-- A required `int` field (`Field(...)`). -/
def validateRequiredInt (field : String) (input : Input) : Except FieldError Int :=
  match lookupKey field input with
  | none => .error (field, "field required")
  | some (.vInt n) => .ok n
  | some _ => .error (field, "value is not a valid integer")

/-- A required `str` field with a `min_length` constraint. -/
def validateMinStr (field : String) (minLen : Nat) (input : Input) :
    Except FieldError String :=
  match lookupKey field input with
  | none => .error (field, "field required")
  | some (.vStr s) =>
    if s.length < minLen then
      .error (field, "ensure this value has at least " ++ toString minLen ++ " characters")
    else .ok s
  | some _ => .error (field, "str type expected")

/-- An `Optional[int] = None` field: absent or `None` yields `None`. -/
def validateOptionalInt (field : String) (input : Input) :
    Except FieldError (Option Int) :=
  match lookupKey field input with
  | none => .ok none
  | some .vNone => .ok none
  | some (.vInt n) => .ok (some n)
  | some _ => .error (field, "value is not a valid integer")

/-- Placeholder identifier used as the never-reached default of `getOk`. -/
def nilOid : ObjectId := ⟨[]⟩

/-- `MongoBaseModel` from `src/models.py`: only the `id` field. -/
structure MongoBaseModel where
  id : ObjectId
  deriving DecidableEq, Repr

/-- Constructing a `MongoBaseModel` from untrusted input: extra keys are
ignored, `id` comes from `_id` or the default factory (`fresh`). -/
def MongoBaseModel.construct (input : Input) (fresh : ObjectId) :
    Except (List FieldError) MongoBaseModel :=
  let eid := validateId input fresh
  let errs := errsOf eid
  if errs.isEmpty then .ok ⟨getOk eid nilOid⟩ else .error errs

/-- `CarBase` from `src/models.py`: the six car fields on top of `id`. -/
structure CarBase where
  id : ObjectId
  brand : String
  make : String
  year : Int
  price : Int
  km : Int
  cm3 : Int
  deriving DecidableEq, Repr

/-- The field errors collected while constructing a `CarBase` from
untrusted input, in field-declaration order. -/
def carBaseErrs (input : Input) (fresh : ObjectId) : List FieldError :=
  errsOf (validateId input fresh) ++ errsOf (validateMinStr "brand" 3 input) ++
    errsOf (validateMinStr "make" 3 input) ++ errsOf (validateRequiredInt "year" input) ++
    errsOf (validateRequiredInt "price" input) ++ errsOf (validateRequiredInt "km" input) ++
    errsOf (validateRequiredInt "cm3" input)

/-- Constructing a `CarBase` from untrusted input: `brand`/`make` are
required strings of length at least 3, `year`/`price`/`km`/`cm3` required
integers; all field errors are collected. -/
def CarBase.construct (input : Input) (fresh : ObjectId) :
    Except (List FieldError) CarBase :=
  if (carBaseErrs input fresh).isEmpty then
    .ok ⟨getOk (validateId input fresh) nilOid,
      getOk (validateMinStr "brand" 3 input) "",
      getOk (validateMinStr "make" 3 input) "",
      getOk (validateRequiredInt "year" input) 0,
      getOk (validateRequiredInt "price" input) 0,
      getOk (validateRequiredInt "km" input) 0,
      getOk (validateRequiredInt "cm3" input) 0⟩
  else .error (carBaseErrs input fresh)

/-- `CarUpdate` from `src/models.py`: `id` plus `price: Optional[int] = None`. -/
structure CarUpdate where
  id : ObjectId
  price : Option Int
  deriving DecidableEq, Repr

/-- Constructing a `CarUpdate` from untrusted input: the only settable
field besides the inherited `_id` is the optional `price`; every other
key is ignored. -/
def CarUpdate.construct (input : Input) (fresh : ObjectId) :
    Except (List FieldError) CarUpdate :=
  let eid := validateId input fresh
  let eprice := validateOptionalInt "price" input
  let errs := errsOf eid ++ errsOf eprice
  if errs.isEmpty then .ok ⟨getOk eid nilOid, getOk eprice none⟩ else .error errs

/-- `class CarDB(CarBase): pass`: the persisted shape inherits everything
from `CarBase` and adds nothing. -/
abbrev CarDB := CarBase

/-- `CarDB` construction is the inherited `CarBase` construction. -/
def CarDB.construct (input : Input) (fresh : ObjectId) :
    Except (List FieldError) CarDB :=
  CarBase.construct input fresh

/-! ## JSON rendering

`MongoBaseModel.Config.json_encoders` maps `ObjectId` to `str`, so every
identifier renders as its hex string; the `id` field serializes under its
alias `_id` (FastAPI serializes response models by alias). -/

/-- A JSON value (flat fragment: the records here render to one-level
objects of strings and integers). -/
inductive Json where
  | jStr (s : String)
  | jInt (n : Int)
  | jNull
  | jObj (fields : List (String × Json))

/-- JSON rendering of a `MongoBaseModel`. -/
def MongoBaseModel.toJson (m : MongoBaseModel) : Json :=
  .jObj [("_id", .jStr m.id.toHexString)]

/-- JSON rendering of a `CarBase` record. -/
def CarBase.toJson (r : CarBase) : Json :=
  .jObj [("_id", .jStr r.id.toHexString), ("brand", .jStr r.brand),
    ("make", .jStr r.make), ("year", .jInt r.year), ("price", .jInt r.price),
    ("km", .jInt r.km), ("cm3", .jInt r.cm3)]

/-- JSON rendering of a `CarDB` record is inherited from `CarBase`. -/
def CarDB.toJson (r : CarDB) : Json :=
  CarBase.toJson r

/-- Reading one JSON leaf back as an untrusted input value (the records
rendered here are flat, so nested objects do not occur). -/
def jsonLeafToValue : Json → Value
  | .jStr s => .vStr s
  | .jInt n => .vInt n
  | _ => .vNone

/-- Parsing a rendered JSON object back into an untrusted input
dictionary. -/
def jsonToInput : Json → Input
  | .jObj fields => fields.map (fun p => (p.1, jsonLeafToValue p.2))
  | _ => []

/-- Looking up a key in a rendered JSON object. -/
def jsonObjGet (k : String) : Json → Option Json
  | .jObj fields => lookupKey k fields
  | _ => none

/-! ## Application bootstrap (from `src/main.py`) -/

/-- The arguments `src/main.py` passes to `app.add_middleware(CORSMiddleware, …)`. -/
structure CORSConfig where
  allow_origins : List String
  allow_credentials : Bool
  allow_methods : List String
  allow_headers : List String
  deriving DecidableEq, Repr

/-- The application object: the CORS middleware configuration attached to
it (if any) and the mounted routers as (path, tags) pairs. -/
structure FastAPIApp where
  corsMiddleware : Option CORSConfig
  mountedRouters : List (String × List String)
  deriving DecidableEq, Repr

/-- `decouple.config(key, cast=str)`: the configuration value for `key`,
or an `UndefinedValueError` when the key is absent from the process
environment/configuration source.  Absence of a required key therefore
aborts module initialization. -/
def decoupleConfig (key : String) (env : List (String × String)) :
    Except String String :=
  match lookupKey key env with
  | some v => .ok v
  | none => .error (key ++ " not found. Declare it as envvar or define a default value.")

/-- The module-level statements of `src/main.py` that build the
application object, in source order: `origins = ["*"]`, `app = FastAPI()`,
`app.add_middleware(CORSMiddleware, allow_origins=origins,
allow_credentials=True, allow_methods=["*"], allow_headers=["*"])`,
`app.include_router(cars_router, ...)` mounted under `/cars` with tag
`cars`, and finally the reassignment of the module variable `origins` to
the explicit localhost list.  Under Python's execution model the
reassignment rebinds the variable only; the middleware keeps the list it
was configured with.  The `reassignOrigins` flag lets the reassignment be
switched off to compare the two behaviours.  Returns the application
object together with the final value of the `origins` variable. -/
def buildApp (reassignOrigins : Bool) : FastAPIApp × List String :=
  let origins := ["*"]
  let app : FastAPIApp := { corsMiddleware := none, mountedRouters := [] }
  let app := { app with
    corsMiddleware := some
      { allow_origins := origins
        allow_credentials := true
        allow_methods := ["*"]
        allow_headers := ["*"] } }
  let app := { app with mountedRouters := app.mountedRouters ++ [("/cars", ["cars"])] }
  let origins := if reassignOrigins then
      ["http://localhost", "http://localhost:8080",
       "http://localhost:3000", "http://localhost:8000"]
    else origins
  (app, origins)

/-- The result of initializing the `main` module. -/
structure MainModule where
  dbUrl : String
  dbName : String
  app : FastAPIApp
  origins : List String
  deriving DecidableEq, Repr

/-- Module initialization of `src/main.py`: the two `decouple.config`
reads run first (lines 12–13), so a missing `DB_URL` or `DB_NAME` aborts
before the application object is built or any route is mounted; otherwise
the application is assembled as in `buildApp` (with the dead `origins`
reassignment executed). -/
def mainModule (env : List (String × String)) : Except String MainModule := do
  let dbUrl ← decoupleConfig "DB_URL" env
  let dbName ← decoupleConfig "DB_NAME" env
  let (app, origins) := buildApp true
  return { dbUrl := dbUrl, dbName := dbName, app := app, origins := origins }


/-! ## Basic facts about the hex round trip -/

theorem hexDigitVal_hexChar : ∀ n, n < 16 → hexDigitVal (hexChar n) = n := by
  decide

theorem isHexDigitChar_hexChar : ∀ n, n < 16 → isHexDigitChar (hexChar n) = true := by
  decide

theorem length_bytesToHexChars (bs : List Nat) :
    (bytesToHexChars bs).length = 2 * bs.length := by
  induction bs with
  | nil => rfl
  | cons b rest ih => simp [bytesToHexChars, byteToHex, ih]; ring

theorem all_isHexDigitChar_bytesToHexChars (bs : List Nat)
    (h : ∀ b ∈ bs, b < 256) :
    (bytesToHexChars bs).all isHexDigitChar = true := by
  induction bs with
  | nil => rfl
  | cons b rest ih =>
    have hb : b < 256 := h b (List.mem_cons_self _ _)
    have h1 : b / 16 < 16 := Nat.div_lt_of_lt_mul (by omega)
    have h2 : b % 16 < 16 := Nat.mod_lt _ (by omega)
    simp only [bytesToHexChars, byteToHex, List.cons_append, List.nil_append,
      List.all_cons, Bool.and_eq_true]
    exact ⟨isHexDigitChar_hexChar _ h1,
      isHexDigitChar_hexChar _ h2,
      ih (fun x hx => h x (List.mem_cons_of_mem _ hx))⟩

theorem hexDecode_bytesToHexChars (bs : List Nat) (h : ∀ b ∈ bs, b < 256) :
    hexDecode (bytesToHexChars bs) = bs := by
  induction bs with
  | nil => rfl
  | cons b rest ih =>
    have hb : b < 256 := h b (List.mem_cons_self _ _)
    have h1 : b / 16 < 16 := Nat.div_lt_of_lt_mul (by omega)
    have h2 : b % 16 < 16 := Nat.mod_lt _ (by omega)
    simp only [bytesToHexChars, byteToHex, List.cons_append, List.nil_append,
      List.append, hexDecode, hexDigitVal_hexChar _ h1, hexDigitVal_hexChar _ h2]
    rw [ih (fun x hx => h x (List.mem_cons_of_mem _ hx))]
    congr 1
    omega

/-- A well-formed identifier's hex string is accepted back by
`ObjectId.is_valid` and decodes to the same identifier. -/
theorem validate_toHexString (o : ObjectId) (h : o.WF) :
    PyObjectId.validate (.vStr o.toHexString) = .ok o := by
  obtain ⟨hlen, hbytes⟩ := h
  have hvalid : ObjectId.is_valid (.vStr ⟨bytesToHexChars o.bytes⟩) = true := by
    simp only [ObjectId.is_valid, Bool.and_eq_true, beq_iff_eq]
    constructor
    · show (bytesToHexChars o.bytes).length = 24
      rw [length_bytesToHexChars, hlen]
    · exact all_isHexDigitChar_bytesToHexChars _ hbytes
  simp [PyObjectId.validate, hvalid, ObjectId.fromValue, ObjectId.toHexString,
    hexDecode_bytesToHexChars _ hbytes]

/-! ## Helper lemmas about field validation and model construction -/

theorem errsOf_eq_nil {α : Type} (e : Except FieldError α) :
    errsOf e = [] ↔ ∃ a, e = .ok a := by
  cases e <;> simp [errsOf]

/-- Filtering an input dictionary by a predicate that keeps key `k`
does not change the lookup of `k`. -/
theorem lookupKey_filter {α : Type} (p : String × α → Bool) (k : String)
    (hp : ∀ v, p (k, v) = true) :
    ∀ l : List (String × α), lookupKey k (l.filter p) = lookupKey k l := by
  intro l
  induction l with
  | nil => rfl
  | cons hd tl ih =>
    obtain ⟨k', v⟩ := hd
    by_cases hk : k' = k
    · subst hk
      simp [List.filter, hp v, lookupKey, ih]
    · have hk' : (k' == k) = false := by simpa using hk
      cases hpv : p (k', v)
      · simp [List.filter, hpv, lookupKey, hk', ih]
      · simp [List.filter, hpv, lookupKey, hk', ih]

theorem validateId_ok (input : Input) (fresh o : ObjectId)
    (h : validateId input fresh = .ok o) :
    (lookupKey "_id" input = none ∧ o = fresh) ∨
      (∃ v, lookupKey "_id" input = some v ∧ ObjectId.is_valid v = true ∧
        o = ObjectId.fromValue v) := by
  unfold validateId at h
  revert h
  cases hl : lookupKey "_id" input with
  | none => intro h; left; exact ⟨rfl, by cases h; rfl⟩
  | some v =>
    intro h
    right
    refine ⟨v, rfl, ?_⟩
    revert h
    unfold PyObjectId.validate
    by_cases hv : ObjectId.is_valid v
    · simp [hv]
      intro h
      exact h.symm
    · simp [hv]

theorem validateMinStr_ok (fld : String) (minLen : Nat) (input : Input) (s : String)
    (h : validateMinStr fld minLen input = .ok s) :
    lookupKey fld input = some (.vStr s) ∧ minLen ≤ s.length := by
  unfold validateMinStr at h
  revert h
  cases hl : lookupKey fld input with
  | none => simp
  | some v =>
    cases v with
    | vStr s' =>
      by_cases hlen : s'.length < minLen
      · simp [hlen]
      · simp only [hlen, if_false]
        intro h
        cases h
        exact ⟨rfl, by omega⟩
    | vInt n => simp
    | vBytes bs => simp
    | vOid o => simp
    | vNone => simp

theorem validateRequiredInt_ok (fld : String) (input : Input) (n : Int)
    (h : validateRequiredInt fld input = .ok n) :
    lookupKey fld input = some (.vInt n) := by
  unfold validateRequiredInt at h
  revert h
  cases hl : lookupKey fld input with
  | none => simp
  | some v => cases v <;> simp

theorem validateOptionalInt_ok (fld : String) (input : Input) (p : Option Int)
    (h : validateOptionalInt fld input = .ok p) :
    (lookupKey fld input = none ∧ p = none) ∨
      (lookupKey fld input = some .vNone ∧ p = none) ∨
      (∃ n, lookupKey fld input = some (.vInt n) ∧ p = some n) := by
  unfold validateOptionalInt at h
  revert h
  cases hl : lookupKey fld input with
  | none => intro h; left; exact ⟨rfl, by cases h; rfl⟩
  | some v =>
    cases v with
    | vNone => intro h; right; left; exact ⟨rfl, by cases h; rfl⟩
    | vInt n => intro h; right; right; exact ⟨n, rfl, by cases h; rfl⟩
    | vStr s => simp
    | vBytes bs => simp
    | vOid o => simp

/-- Characterization of a successful `MongoBaseModel` construction. -/
theorem mongoBase_construct_ok (input : Input) (fresh : ObjectId)
    (m : MongoBaseModel) :
    MongoBaseModel.construct input fresh = .ok m ↔
      validateId input fresh = .ok m.id := by
  obtain ⟨mid⟩ := m
  unfold MongoBaseModel.construct
  cases h1 : validateId input fresh <;> simp_all [errsOf, getOk]

/-- Characterization of a successful `CarBase` construction: every field
validator succeeded with the record's field value. -/
theorem carBase_construct_ok (input : Input) (fresh : ObjectId) (r : CarBase) :
    CarBase.construct input fresh = .ok r ↔
      validateId input fresh = .ok r.id ∧
      validateMinStr "brand" 3 input = .ok r.brand ∧
      validateMinStr "make" 3 input = .ok r.make ∧
      validateRequiredInt "year" input = .ok r.year ∧
      validateRequiredInt "price" input = .ok r.price ∧
      validateRequiredInt "km" input = .ok r.km ∧
      validateRequiredInt "cm3" input = .ok r.cm3 := by
  obtain ⟨rid, rb, rm, ry, rp, rk, rc⟩ := r
  unfold CarBase.construct carBaseErrs
  cases h1 : validateId input fresh <;>
    cases h2 : validateMinStr "brand" 3 input <;>
    cases h3 : validateMinStr "make" 3 input <;>
    cases h4 : validateRequiredInt "year" input <;>
    cases h5 : validateRequiredInt "price" input <;>
    cases h6 : validateRequiredInt "km" input <;>
    cases h7 : validateRequiredInt "cm3" input <;>
    simp_all [errsOf, getOk]

/-- Characterization of a successful `CarUpdate` construction. -/
theorem carUpdate_construct_ok (input : Input) (fresh : ObjectId)
    (u : CarUpdate) :
    CarUpdate.construct input fresh = .ok u ↔
      validateId input fresh = .ok u.id ∧
      validateOptionalInt "price" input = .ok u.price := by
  obtain ⟨uid, up⟩ := u
  unfold CarUpdate.construct
  cases h1 : validateId input fresh <;>
    cases h2 : validateOptionalInt "price" input <;>
    simp_all [errsOf, getOk]

/-- A field error forces `CarBase` construction to fail with an error
list containing it. -/
theorem carBase_construct_error_of_mem (input : Input) (fresh : ObjectId)
    (f : FieldError) (h : f ∈ carBaseErrs input fresh) :
    CarBase.construct input fresh = .error (carBaseErrs input fresh) ∧
      f ∈ carBaseErrs input fresh := by
  refine ⟨?_, h⟩
  unfold CarBase.construct
  cases hemp : (carBaseErrs input fresh).isEmpty
  · simp
  · rw [List.isEmpty_iff] at hemp
    rw [hemp] at h
    exact absurd h (List.not_mem_nil f)

theorem validateId_okOf_absent (input : Input) (fresh : ObjectId)
    (hl : lookupKey "_id" input = none) :
    validateId input fresh = .ok fresh := by
  simp [validateId, hl]

theorem validateId_okOf_present (input : Input) (fresh : ObjectId) (v : Value)
    (o : ObjectId) (hl : lookupKey "_id" input = some v)
    (hv : PyObjectId.validate v = .ok o) :
    validateId input fresh = .ok o := by
  simp [validateId, hl, hv]

theorem validateId_error (input : Input) (fresh : ObjectId) (v : Value)
    (hl : lookupKey "_id" input = some v) (hv : ObjectId.is_valid v = false) :
    validateId input fresh = .error ("_id", "Invalid objectid") := by
  simp [validateId, hl, PyObjectId.validate, hv]

theorem validateMinStr_okOf (fld : String) (minLen : Nat) (input : Input)
    (s : String) (hl : lookupKey fld input = some (.vStr s))
    (hlen : minLen ≤ s.length) :
    validateMinStr fld minLen input = .ok s := by
  simp [validateMinStr, hl, Nat.not_lt.mpr hlen]

theorem validateMinStr_short (fld : String) (minLen : Nat) (input : Input)
    (s : String) (hl : lookupKey fld input = some (.vStr s))
    (hlen : s.length < minLen) :
    validateMinStr fld minLen input =
      .error (fld, "ensure this value has at least " ++ toString minLen ++ " characters") := by
  simp [validateMinStr, hl, hlen]

theorem validateRequiredInt_okOf (fld : String) (input : Input) (n : Int)
    (hl : lookupKey fld input = some (.vInt n)) :
    validateRequiredInt fld input = .ok n := by
  simp [validateRequiredInt, hl]

theorem validateRequiredInt_missing (fld : String) (input : Input)
    (hl : lookupKey fld input = none) :
    validateRequiredInt fld input = .error (fld, "field required") := by
  simp [validateRequiredInt, hl]

theorem validateRequiredInt_wrongType (fld : String) (input : Input) (v : Value)
    (hl : lookupKey fld input = some v) (hv : ∀ n : Int, v ≠ .vInt n) :
    validateRequiredInt fld input = .error (fld, "value is not a valid integer") := by
  cases v with
  | vInt n => exact absurd rfl (hv n)
  | vStr s => simp [validateRequiredInt, hl]
  | vBytes bs => simp [validateRequiredInt, hl]
  | vOid o => simp [validateRequiredInt, hl]
  | vNone => simp [validateRequiredInt, hl]

/-! ## The claims -/

/-- C3: `PyObjectId.validate` returns the native identifier built from
`v` whenever `v` is a syntactically valid identifier, and fails with an
error carrying exactly the message "Invalid objectid" when `v` is not
valid; it fails if and only if `v` is invalid. -/
theorem C3_validate_ok_iff_valid (v : Value) :
    (PyObjectId.validate v = .error "Invalid objectid" ↔
      ObjectId.is_valid v = false) ∧
    (ObjectId.is_valid v = true →
      PyObjectId.validate v = .ok (ObjectId.fromValue v)) := by
  unfold PyObjectId.validate
  cases h : ObjectId.is_valid v <;> simp

/-- Witness for C3 at the valid 24-character hex string
`"0123456789abcdef01234567"` and the invalid value `5`. -/
theorem C3_validate_witness :
    ObjectId.is_valid (.vStr "0123456789abcdef01234567") = true ∧
    PyObjectId.validate (.vStr "0123456789abcdef01234567") =
      .ok (ObjectId.fromValue (.vStr "0123456789abcdef01234567")) ∧
    PyObjectId.validate (.vInt 5) = .error "Invalid objectid" :=
  ⟨by decide, (C3_validate_ok_iff_valid _).2 (by decide),
    (C3_validate_ok_iff_valid _).1.mpr (by decide)⟩

/-- C10: `PyObjectId.validate` accepts exactly what `ObjectId.is_valid`
accepts, and that is strictly broader than 24-character hexadecimal
strings: a 12-byte binary sequence and an existing native identifier are
also accepted and converted, and neither of those inputs is a string. -/
theorem C10_validate_beyond_hex_strings :
    (∀ v, (∃ o, PyObjectId.validate v = .ok o) ↔ ObjectId.is_valid v = true) ∧
    PyObjectId.validate (.vBytes [1, 2, 3, 4, 5, 6, 7, 8, 9, 10, 11, 12]) =
      .ok ⟨[1, 2, 3, 4, 5, 6, 7, 8, 9, 10, 11, 12]⟩ ∧
    PyObjectId.validate (.vOid ⟨[1, 2, 3, 4, 5, 6, 7, 8, 9, 10, 11, 12]⟩) =
      .ok ⟨[1, 2, 3, 4, 5, 6, 7, 8, 9, 10, 11, 12]⟩ ∧
    (∀ s : String, Value.vBytes [1, 2, 3, 4, 5, 6, 7, 8, 9, 10, 11, 12] ≠ .vStr s) ∧
    (∀ s : String, Value.vOid ⟨[1, 2, 3, 4, 5, 6, 7, 8, 9, 10, 11, 12]⟩ ≠ .vStr s) := by
  refine ⟨?_, rfl, rfl, ?_, ?_⟩
  · intro v
    unfold PyObjectId.validate
    cases h : ObjectId.is_valid v <;> simp
  · intro s h
    exact Value.noConfusion h
  · intro s h
    exact Value.noConfusion h

/-- Witness for C10: a 12-byte binary input is accepted even though it is
not a string. -/
theorem C10_validate_witness :
    ∃ o, PyObjectId.validate (.vBytes [0, 0, 0, 0, 0, 0, 0, 0, 0, 0, 0, 0]) = .ok o :=
  (C10_validate_beyond_hex_strings.1 _).mpr (by decide)

/-- C4: constructing a model on the base document shape from an input
with no `_id` yields the freshly generated identifier; the `id` field is
populated from the wire key `_id`; JSON rendering renders the identifier
under the key `_id` as its string form; and the schema hook declares the
field a string. -/
theorem C4_mongo_base_id :
    (∀ (input : Input) (fresh : ObjectId), lookupKey "_id" input = none →
      MongoBaseModel.construct input fresh = .ok ⟨fresh⟩) ∧
    (∀ (input : Input) (fresh : ObjectId) (v : Value),
      lookupKey "_id" input = some v → ObjectId.is_valid v = true →
      MongoBaseModel.construct input fresh = .ok ⟨ObjectId.fromValue v⟩) ∧
    (∀ m : MongoBaseModel,
      m.toJson = .jObj [("_id", .jStr m.id.toHexString)]) ∧
    lookupKey "type" (PyObjectId.modify_schema [("title", "Id")]) = some "string" := by
  refine ⟨?_, ?_, fun m => rfl, by decide⟩
  · intro input fresh h
    exact (mongoBase_construct_ok input fresh ⟨fresh⟩).mpr (validateId_okOf_absent input fresh h)
  · intro input fresh v hl hv
    refine (mongoBase_construct_ok input fresh ⟨ObjectId.fromValue v⟩).mpr ?_
    refine validateId_okOf_present input fresh v _ hl ?_
    simp [PyObjectId.validate, hv]

/-- Witness for C4: with no `_id` in the input the fresh identifier is
used; with a valid `_id` it is parsed from the wire key. -/
theorem C4_mongo_base_witness :
    MongoBaseModel.construct [("brand", Value.vStr "Fiat")]
      ⟨[1, 2, 3, 4, 5, 6, 7, 8, 9, 10, 11, 12]⟩ =
      .ok ⟨⟨[1, 2, 3, 4, 5, 6, 7, 8, 9, 10, 11, 12]⟩⟩ ∧
    MongoBaseModel.construct [("_id", Value.vBytes [0, 0, 0, 0, 0, 0, 0, 0, 0, 0, 0, 0])]
      ⟨[1, 2, 3, 4, 5, 6, 7, 8, 9, 10, 11, 12]⟩ =
      .ok ⟨⟨[0, 0, 0, 0, 0, 0, 0, 0, 0, 0, 0, 0]⟩⟩ :=
  ⟨C4_mongo_base_id.1 _ _ (by decide),
    C4_mongo_base_id.2.1 _ _ (Value.vBytes [0, 0, 0, 0, 0, 0, 0, 0, 0, 0, 0, 0])
      (by decide) (by decide)⟩

/-- C9: the persisted shape `CarDB` is field-for-field the base shape
`CarBase`: construction coincides on every input, and so does the JSON
serialization. -/
theorem C9_carDB_equals_carBase :
    (∀ (input : Input) (fresh : ObjectId),
      CarDB.construct input fresh = CarBase.construct input fresh) ∧
    (∀ r : CarDB, CarDB.toJson r = CarBase.toJson r) :=
  ⟨fun _ _ => rfl, fun _ => rfl⟩

/-- C6: the CORS middleware is configured to allow any origin (`"*"`),
allow credentials, and allow all methods and headers; and the application
object (middleware configuration included) is identical whether or not
the later `origins` reassignment is executed. -/
theorem C6_cors_policy :
    (buildApp true).1.corsMiddleware =
      some { allow_origins := ["*"], allow_credentials := true,
             allow_methods := ["*"], allow_headers := ["*"] } ∧
    (buildApp true).1 = (buildApp false).1 :=
  ⟨rfl, rfl⟩

/-- C7: if `DB_URL` or `DB_NAME` is absent from the configuration source,
module initialization fails (producing no application object, hence
mounting no route); if both are present, it succeeds with those values
and the fully assembled application. -/
theorem C7_config_required (env : List (String × String)) :
    ((lookupKey "DB_URL" env = none ∨ lookupKey "DB_NAME" env = none) →
      ∃ msg, mainModule env = .error msg) ∧
    (∀ u n, lookupKey "DB_URL" env = some u → lookupKey "DB_NAME" env = some n →
      mainModule env = .ok ⟨u, n, (buildApp true).1, (buildApp true).2⟩) := by
  constructor
  · rintro (h | h)
    · exact ⟨"DB_URL not found. Declare it as envvar or define a default value.",
        by simp [mainModule, decoupleConfig, h, Bind.bind, Except.bind]⟩
    · cases hu : lookupKey "DB_URL" env with
      | none =>
        exact ⟨"DB_URL not found. Declare it as envvar or define a default value.",
          by simp [mainModule, decoupleConfig, hu, Bind.bind, Except.bind]⟩
      | some u =>
        exact ⟨"DB_NAME not found. Declare it as envvar or define a default value.",
          by simp [mainModule, decoupleConfig, hu, h, Bind.bind, Except.bind]⟩
  · intro u n hu hn
    simp [mainModule, decoupleConfig, hu, hn, Bind.bind, Except.bind, pure, Except.pure]

/-- Witness for C7: initialization fails with `DB_URL` missing and
succeeds with both values present. -/
theorem C7_config_witness :
    (∃ msg, mainModule [("DB_NAME", "carsdb")] = .error msg) ∧
    mainModule [("DB_URL", "mongodb://localhost:27017"), ("DB_NAME", "carsdb")] =
      .ok ⟨"mongodb://localhost:27017", "carsdb", (buildApp true).1, (buildApp true).2⟩ :=
  ⟨(C7_config_required _).1 (Or.inl (by decide)),
    (C7_config_required _).2 _ _ (by decide) (by decide)⟩

/-- C1: the update shape accepts only `price` from the input (besides the
inherited `_id`): construction ignores every other key, an empty input
succeeds with price defaulting to no value, and the constructed record's
`price` is exactly the supplied entry (or `none` when absent or `None`). -/
theorem C1_carUpdate_only_price :
    (∀ (input : Input) (fresh : ObjectId),
      CarUpdate.construct input fresh =
        CarUpdate.construct
          (input.filter fun p => p.1 == "_id" || p.1 == "price") fresh) ∧
    (∀ fresh : ObjectId, CarUpdate.construct [] fresh = .ok ⟨fresh, none⟩) ∧
    (∀ (input : Input) (fresh : ObjectId) (u : CarUpdate),
      CarUpdate.construct input fresh = .ok u →
        ((lookupKey "price" input = none ∨ lookupKey "price" input = some .vNone) →
          u.price = none) ∧
        (∀ n : Int, lookupKey "price" input = some (.vInt n) → u.price = some n)) := by
  refine ⟨?_, fun fresh => rfl, ?_⟩
  · intro input fresh
    have h1 : lookupKey "_id" (input.filter fun p => p.1 == "_id" || p.1 == "price") =
        lookupKey "_id" input :=
      lookupKey_filter _ _ (fun v => by simp) input
    have h2 : lookupKey "price" (input.filter fun p => p.1 == "_id" || p.1 == "price") =
        lookupKey "price" input :=
      lookupKey_filter _ _ (fun v => by simp) input
    simp only [CarUpdate.construct, validateId, validateOptionalInt, h1, h2]
  · intro input fresh u h
    obtain ⟨hid, hp⟩ := (carUpdate_construct_ok input fresh u).mp h
    have hinv := validateOptionalInt_ok _ _ _ hp
    constructor
    · rintro (habs | habs) <;>
        rcases hinv with ⟨hl, hu⟩ | ⟨hl, hu⟩ | ⟨n, hl, hu⟩ <;>
        simp_all
    · intro n hn
      rcases hinv with ⟨hl, hu⟩ | ⟨hl, hu⟩ | ⟨n', hl, hu⟩ <;> simp_all

/-- Witness for C1: a price-only update input sets exactly the price. -/
theorem C1_carUpdate_witness :
    CarUpdate.construct [("price", Value.vInt 4000), ("brand", Value.vStr "Opel")]
      nilOid = .ok ⟨nilOid, some 4000⟩ ∧
    (CarUpdate.mk nilOid (some 4000)).price = some 4000 :=
  ⟨rfl,
    (C1_carUpdate_only_price.2.2 [("price", Value.vInt 4000), ("brand", Value.vStr "Opel")]
      nilOid ⟨nilOid, some 4000⟩ rfl).2 4000 rfl⟩

/-- C8: every successfully constructed persisted record satisfies the
invariants: `brand` and `make` have length at least 3 (hence are not
empty), and the four numeric fields were all present as integers in the
input and are carried in the record. -/
theorem C8_carDB_invariants (input : Input) (fresh : ObjectId) (r : CarDB)
    (h : CarDB.construct input fresh = .ok r) :
    3 ≤ r.brand.length ∧ 3 ≤ r.make.length ∧ r.brand ≠ "" ∧ r.make ≠ "" ∧
    lookupKey "year" input = some (.vInt r.year) ∧
    lookupKey "price" input = some (.vInt r.price) ∧
    lookupKey "km" input = some (.vInt r.km) ∧
    lookupKey "cm3" input = some (.vInt r.cm3) := by
  obtain ⟨hid, hb, hm, hy, hp, hk, hc⟩ := (carBase_construct_ok input fresh r).mp h
  have hb' := validateMinStr_ok _ _ _ _ hb
  have hm' := validateMinStr_ok _ _ _ _ hm
  refine ⟨hb'.2, hm'.2, ?_, ?_, validateRequiredInt_ok _ _ _ hy,
    validateRequiredInt_ok _ _ _ hp, validateRequiredInt_ok _ _ _ hk,
    validateRequiredInt_ok _ _ _ hc⟩
  · intro he
    have := hb'.2
    rw [he] at this
    simp at this
  · intro he
    have := hm'.2
    rw [he] at this
    simp at this

/-- Witness for C8 on a concrete successfully constructed record. -/
theorem C8_carDB_witness :
    CarDB.construct
      [("brand", Value.vStr "Fiat"), ("make", Value.vStr "Panda"),
       ("year", Value.vInt 2019), ("price", Value.vInt 5000),
       ("km", Value.vInt 10000), ("cm3", Value.vInt 999)]
      ⟨[1, 2, 3, 4, 5, 6, 7, 8, 9, 10, 11, 12]⟩ =
      .ok ⟨⟨[1, 2, 3, 4, 5, 6, 7, 8, 9, 10, 11, 12]⟩, "Fiat", "Panda", 2019, 5000, 10000, 999⟩ ∧
    3 ≤ (CarBase.mk ⟨[1, 2, 3, 4, 5, 6, 7, 8, 9, 10, 11, 12]⟩
      "Fiat" "Panda" 2019 5000 10000 999).brand.length ∧
    3 ≤ (CarBase.mk ⟨[1, 2, 3, 4, 5, 6, 7, 8, 9, 10, 11, 12]⟩
      "Fiat" "Panda" 2019 5000 10000 999).make.length := by
  have h := C8_carDB_invariants
    [("brand", Value.vStr "Fiat"), ("make", Value.vStr "Panda"),
     ("year", Value.vInt 2019), ("price", Value.vInt 5000),
     ("km", Value.vInt 10000), ("cm3", Value.vInt 999)]
    ⟨[1, 2, 3, 4, 5, 6, 7, 8, 9, 10, 11, 12]⟩
    ⟨⟨[1, 2, 3, 4, 5, 6, 7, 8, 9, 10, 11, 12]⟩, "Fiat", "Panda", 2019, 5000, 10000, 999⟩
    rfl
  exact ⟨rfl, h.1, h.2.1⟩

/-- C2 counterexample: an input meeting all the conditions of the claim's
success half — `brand` and `make` strings of length at least 3, all four
numeric fields integers — on which `CarBase` construction nevertheless
fails, because the input also carries a syntactically invalid `_id`.  The
claim's "construction succeeds" half is therefore false as stated. -/
theorem C2_carBase_counterexample :
    lookupKey "brand"
        [("_id", Value.vStr "zzz"), ("brand", Value.vStr "Fiat"),
         ("make", Value.vStr "Panda"), ("year", Value.vInt 2019),
         ("price", Value.vInt 5000), ("km", Value.vInt 10000),
         ("cm3", Value.vInt 999)] = some (.vStr "Fiat") ∧
    3 ≤ ("Fiat" : String).length ∧ 3 ≤ ("Panda" : String).length ∧
    CarBase.construct
        [("_id", Value.vStr "zzz"), ("brand", Value.vStr "Fiat"),
         ("make", Value.vStr "Panda"), ("year", Value.vInt 2019),
         ("price", Value.vInt 5000), ("km", Value.vInt 10000),
         ("cm3", Value.vInt 999)] nilOid =
      .error [("_id", "Invalid objectid")] :=
  ⟨rfl, by decide, by decide, rfl⟩

/-- C2 (amended): validation of the base car shape.  Failure side: a
`brand`/`make` string shorter than 3 characters, or a missing or
non-integer `year`/`price`/`km`/`cm3`, makes construction fail with an
error list naming the offending field and constraint.  Success side
(amended): when `brand` and `make` are strings of length at least 3, the
four numeric fields are integers, and the `_id` entry — if supplied — is
a syntactically valid identifier, construction succeeds with exactly
those values (no range check on the integers). -/
theorem C2_carBase_validation (input : Input) (fresh : ObjectId) :
    (∀ s : String, lookupKey "brand" input = some (.vStr s) → s.length < 3 →
      CarBase.construct input fresh = .error (carBaseErrs input fresh) ∧
        ("brand", "ensure this value has at least 3 characters") ∈
          carBaseErrs input fresh) ∧
    (∀ s : String, lookupKey "make" input = some (.vStr s) → s.length < 3 →
      CarBase.construct input fresh = .error (carBaseErrs input fresh) ∧
        ("make", "ensure this value has at least 3 characters") ∈
          carBaseErrs input fresh) ∧
    (∀ fld, (fld = "year" ∨ fld = "price" ∨ fld = "km" ∨ fld = "cm3") →
      lookupKey fld input = none →
      CarBase.construct input fresh = .error (carBaseErrs input fresh) ∧
        (fld, "field required") ∈ carBaseErrs input fresh) ∧
    (∀ fld v, (fld = "year" ∨ fld = "price" ∨ fld = "km" ∨ fld = "cm3") →
      lookupKey fld input = some v → (∀ n : Int, v ≠ .vInt n) →
      CarBase.construct input fresh = .error (carBaseErrs input fresh) ∧
        (fld, "value is not a valid integer") ∈ carBaseErrs input fresh) ∧
    (∀ (oid : ObjectId) (b m : String) (y p k c : Int),
      ((lookupKey "_id" input = none ∧ oid = fresh) ∨
        (∃ v, lookupKey "_id" input = some v ∧ PyObjectId.validate v = .ok oid)) →
      lookupKey "brand" input = some (.vStr b) → 3 ≤ b.length →
      lookupKey "make" input = some (.vStr m) → 3 ≤ m.length →
      lookupKey "year" input = some (.vInt y) →
      lookupKey "price" input = some (.vInt p) →
      lookupKey "km" input = some (.vInt k) →
      lookupKey "cm3" input = some (.vInt c) →
      CarBase.construct input fresh = .ok ⟨oid, b, m, y, p, k, c⟩) := by
  refine ⟨?_, ?_, ?_, ?_, ?_⟩
  · intro s hl hlen
    have hb : validateMinStr "brand" 3 input =
        .error ("brand", "ensure this value has at least 3 characters") :=
      (validateMinStr_short "brand" 3 input s hl hlen).trans rfl
    exact carBase_construct_error_of_mem input fresh _
      (by simp [carBaseErrs, hb, errsOf])
  · intro s hl hlen
    have hm : validateMinStr "make" 3 input =
        .error ("make", "ensure this value has at least 3 characters") :=
      (validateMinStr_short "make" 3 input s hl hlen).trans rfl
    exact carBase_construct_error_of_mem input fresh _
      (by simp [carBaseErrs, hm, errsOf])
  · rintro fld (rfl | rfl | rfl | rfl) hl <;>
      exact carBase_construct_error_of_mem input fresh _
        (by simp [carBaseErrs, validateRequiredInt_missing _ _ hl, errsOf])
  · rintro fld v (rfl | rfl | rfl | rfl) hl hv <;>
      exact carBase_construct_error_of_mem input fresh _
        (by simp [carBaseErrs, validateRequiredInt_wrongType _ _ _ hl hv, errsOf])
  · intro oid b m y p k c hid hb hbl hm hml hy hp hk hc
    refine (carBase_construct_ok input fresh ⟨oid, b, m, y, p, k, c⟩).mpr
      ⟨?_, validateMinStr_okOf _ _ _ _ hb hbl, validateMinStr_okOf _ _ _ _ hm hml,
        validateRequiredInt_okOf _ _ _ hy, validateRequiredInt_okOf _ _ _ hp,
        validateRequiredInt_okOf _ _ _ hk, validateRequiredInt_okOf _ _ _ hc⟩
    rcases hid with ⟨hl, rfl⟩ | ⟨v, hl, hv⟩
    · exact validateId_okOf_absent _ _ hl
    · exact validateId_okOf_present _ _ v _ hl hv

/-- Witness for C2 (amended): a short `brand` is rejected naming the
field, and a fully valid input with no `_id` is accepted. -/
theorem C2_carBase_witness :
    (CarBase.construct [("brand", Value.vStr "ab")] nilOid =
        .error (carBaseErrs [("brand", Value.vStr "ab")] nilOid) ∧
      ("brand", "ensure this value has at least 3 characters") ∈
        carBaseErrs [("brand", Value.vStr "ab")] nilOid) ∧
    CarBase.construct
      [("brand", Value.vStr "Opel"), ("make", Value.vStr "Astra"),
       ("year", Value.vInt 2015), ("price", Value.vInt 7000),
       ("km", Value.vInt 89000), ("cm3", Value.vInt 1600)]
      ⟨[1, 2, 3, 4, 5, 6, 7, 8, 9, 10, 11, 12]⟩ =
      .ok ⟨⟨[1, 2, 3, 4, 5, 6, 7, 8, 9, 10, 11, 12]⟩, "Opel", "Astra",
        2015, 7000, 89000, 1600⟩ :=
  ⟨(C2_carBase_validation [("brand", Value.vStr "ab")] nilOid).1 "ab" rfl (by decide),
    (C2_carBase_validation _ _).2.2.2.2 ⟨[1, 2, 3, 4, 5, 6, 7, 8, 9, 10, 11, 12]⟩
      "Opel" "Astra" 2015 7000 89000 1600 (Or.inl ⟨rfl, rfl⟩)
      rfl (by decide) rfl (by decide) rfl rfl rfl rfl⟩

/-- C5: round trip for the persisted shape.  For every `CarDB` record as
the data-model layer produces them (12-byte identifier, `brand` and
`make` of length at least 3), the serialized JSON carries `_id` as the
identifier's string form, and parsing the JSON back through `CarDB`
construction yields a record with identical field values. -/
theorem C5_carDB_roundtrip (r : CarDB) (fresh : ObjectId) (hid : r.id.WF)
    (hbrand : 3 ≤ r.brand.length) (hmake : 3 ≤ r.make.length) :
    jsonObjGet "_id" (CarDB.toJson r) = some (.jStr r.id.toHexString) ∧
    CarDB.construct (jsonToInput (CarDB.toJson r)) fresh = .ok r := by
  refine ⟨rfl, ?_⟩
  show CarBase.construct (jsonToInput (CarDB.toJson r)) fresh = .ok r
  have hinput : jsonToInput (CarDB.toJson r) =
      [("_id", Value.vStr r.id.toHexString), ("brand", Value.vStr r.brand),
       ("make", Value.vStr r.make), ("year", Value.vInt r.year),
       ("price", Value.vInt r.price), ("km", Value.vInt r.km),
       ("cm3", Value.vInt r.cm3)] := rfl
  rw [hinput]
  exact (carBase_construct_ok _ fresh r).mpr
    ⟨validateId_okOf_present _ fresh _ r.id rfl (validate_toHexString r.id hid),
      validateMinStr_okOf _ _ _ _ rfl hbrand,
      validateMinStr_okOf _ _ _ _ rfl hmake,
      validateRequiredInt_okOf _ _ _ rfl,
      validateRequiredInt_okOf _ _ _ rfl,
      validateRequiredInt_okOf _ _ _ rfl,
      validateRequiredInt_okOf _ _ _ rfl⟩

/-- Witness for C5 on a concrete stored record. -/
theorem C5_carDB_witness :
    ((⟨⟨[0, 1, 2, 3, 4, 5, 6, 7, 8, 9, 10, 11]⟩, "Fiat", "Panda",
        2019, 5000, 10000, 999⟩ : CarDB).id.WF) ∧
    CarDB.construct
      (jsonToInput (CarDB.toJson
        ⟨⟨[0, 1, 2, 3, 4, 5, 6, 7, 8, 9, 10, 11]⟩, "Fiat", "Panda",
          2019, 5000, 10000, 999⟩)) nilOid =
      .ok ⟨⟨[0, 1, 2, 3, 4, 5, 6, 7, 8, 9, 10, 11]⟩, "Fiat", "Panda",
        2019, 5000, 10000, 999⟩ :=
  ⟨by decide,
    (C5_carDB_roundtrip _ nilOid (by decide) (by decide) (by decide)).2⟩

end Farmcars
